import Mathlib

/-
  Shallow embedding of the paraphraser front-end client logic
  (src/src/pages/index.tsx of robrob-creator/paraphraser-frontend).

  The component state hooks of the `Home` component become the fields of
  `AppState`; the event handlers `handleParaphrase`, `handleClear`,
  `handleTestSample` and `handleCopyOutput` become state-transition
  functions.  The outcome of the single `fetch` call (and of
  `response.json()`) is passed in explicitly as a `FetchOutcome`, and each
  handler that could touch the network additionally returns a `Bool`
  recording whether a network request was issued.  JavaScript numbers are
  modelled as rationals (`ℚ`); a JSON field that may be absent is an
  `Option`; JavaScript `a || b` is modelled by truthiness helpers
  (`undefined`/absent, `""` and `0` are falsy; every array is truthy).
-/

namespace Paraphraser

/-- A thrown JavaScript value as seen by a `catch (err)` block:
either an `Error` object carrying a message, or any other thrown value. -/
inductive JsError where
  | errorObj : String → JsError
  | nonError : JsError
  deriving Repr, DecidableEq

/-- The message the catch block of `handleParaphrase` extracts:
`err instanceof Error ? err.message : "An error occurred while paraphrasing"`. -/
def caughtMessage : JsError → String
  | .errorObj msg => msg
  | .nonError => "An error occurred while paraphrasing"

/-- The loosely-typed JSON record returned by the remote `/paraphrase`
endpoint.  Each key the source reads is a field; `none` models an absent
(`undefined`) key.  Numbers are rationals, string lists model JSON arrays. -/
structure ApiResponse where
  paraphrasedText : Option String
  paraphrased_text : Option String
  text : Option String
  confidence : Option ℚ
  confidence_score : Option ℚ
  alternativeVersions : Option (List String)
  alternatives : Option (List String)
  alternative_versions : Option (List String)
  processingTime : Option ℚ
  processing_time : Option ℚ
  wordCount : Option ℚ
  word_count : Option ℚ
  characterCount : Option ℚ
  character_count : Option ℚ
  deriving Repr, DecidableEq

/-- The response record with every known key absent. -/
def ApiResponse.empty : ApiResponse :=
  { paraphrasedText := none, paraphrased_text := none, text := none,
    confidence := none, confidence_score := none,
    alternativeVersions := none, alternatives := none,
    alternative_versions := none,
    processingTime := none, processing_time := none,
    wordCount := none, word_count := none,
    characterCount := none, character_count := none }

/-- JavaScript `a || b` for an optional string field: an absent field
(`undefined`) and the empty string are falsy, every other string truthy. -/
def jsOrStr (a : Option String) (b : String) : String :=
  match a with
  | some s => if s = "" then b else s
  | none => b

/-- JavaScript `a || b` for an optional numeric field: an absent field
(`undefined`) and `0` are falsy, every other number truthy. -/
def jsOrNum (a : Option ℚ) (b : ℚ) : ℚ :=
  match a with
  | some x => if x = 0 then b else x
  | none => b

/-- JavaScript `a || b` for an optional array field: an absent field
(`undefined`) is falsy, every array — the empty array included — is truthy. -/
def jsOrList (a : Option (List String)) (b : List String) : List String :=
  match a with
  | some l => l
  | none => b

/-- `data.paraphrasedText || data.paraphrased_text || data.text || ""`. -/
def normOutputText (d : ApiResponse) : String :=
  jsOrStr d.paraphrasedText (jsOrStr d.paraphrased_text (jsOrStr d.text ""))

/-- `data.confidence || data.confidence_score || 0`. -/
def normConfidence (d : ApiResponse) : ℚ :=
  jsOrNum d.confidence (jsOrNum d.confidence_score 0)

/-- `data.alternativeVersions || data.alternatives || data.alternative_versions || []`. -/
def normAlternatives (d : ApiResponse) : List String :=
  jsOrList d.alternativeVersions
    (jsOrList d.alternatives (jsOrList d.alternative_versions []))

/-- `data.processingTime || data.processing_time || 0`. -/
def normProcessingTime (d : ApiResponse) : ℚ :=
  jsOrNum d.processingTime (jsOrNum d.processing_time 0)

/-- `data.wordCount || data.word_count || 0`. -/
def normWordCount (d : ApiResponse) : ℚ :=
  jsOrNum d.wordCount (jsOrNum d.word_count 0)

/-- `data.characterCount || data.character_count || 0`. -/
def normCharacterCount (d : ApiResponse) : ℚ :=
  jsOrNum d.characterCount (jsOrNum d.character_count 0)

/-- The mutable component state of the `Home` component: one field per
`useState` hook that the modelled handlers read or write (the dark-mode
flag, touched only by the theme toggle, is omitted). -/
structure AppState where
  inputText : String
  outputText : String
  selectedStyle : String
  isLoading : Bool
  error : String
  confidenceScore : Option ℚ
  alternativeVersions : List String
  processingTime : Option ℚ
  wordCount : Option ℚ
  characterCount : Option ℚ
  copiedText : Option String
  deriving Repr, DecidableEq

/-- JavaScript `String.prototype.trim()`: drops leading and trailing
whitespace.  Written structurally over the character list so that it
evaluates by kernel reduction on concrete strings. -/
def jsTrim (s : String) : String :=
  String.mk (((s.data.dropWhile Char.isWhitespace).reverse.dropWhile
    Char.isWhitespace).reverse)

/-- `response.ok` of the Fetch API: the HTTP status is in 200..299. -/
def okStatus (status : Nat) : Bool :=
  200 ≤ status && status ≤ 299

/-- What the single awaited `fetch` of `handleParaphrase` produced:
either the promise rejected (network failure), or a response arrived with
a status, a status text and a body whose `json()` parse either succeeded
with an `ApiResponse` or threw. -/
inductive FetchOutcome where
  | fetchFailed : JsError → FetchOutcome
  | gotResponse : Nat → String → Except JsError ApiResponse → FetchOutcome
  deriving Repr

/-- An outcome on which `handleParaphrase` ends in its catch block:
the fetch rejected, the status was not 2xx, or the body failed to parse. -/
def FetchOutcome.isFailure : FetchOutcome → Bool
  | .fetchFailed _ => true
  | .gotResponse status _ body =>
      !(okStatus status) ||
        (match body with
         | .error _ => true
         | .ok _ => false)

/-- `handleParaphrase`: validates the input, clears error and metrics,
runs the fetch (whose result is the `outcome` argument), normalizes a
successful body, routes every thrown error through the catch block, and
clears `isLoading` in the `finally` block.  Returns the new state and
whether a network request was issued. -/
def handleParaphrase (outcome : FetchOutcome) (s : AppState) : AppState × Bool :=
  if jsTrim s.inputText = "" then
    ({ s with error := "Please enter some text to paraphrase" }, false)
  else
    let s1 : AppState :=
      { s with isLoading := true, error := "",
               confidenceScore := none, alternativeVersions := [],
               processingTime := none, wordCount := none,
               characterCount := none }
    let s2 : AppState :=
      match outcome with
      | .fetchFailed e => { s1 with error := caughtMessage e }
      | .gotResponse status statusText body =>
          if !(okStatus status) then
            { s1 with error :=
                caughtMessage (JsError.errorObj
                  ("Error: " ++ toString status ++ " " ++ statusText)) }
          else
            match body with
            | .error e => { s1 with error := caughtMessage e }
            | .ok data =>
                { s1 with
                  outputText := normOutputText data,
                  confidenceScore := some (normConfidence data),
                  alternativeVersions := normAlternatives data,
                  processingTime := some (normProcessingTime data),
                  wordCount := some (normWordCount data),
                  characterCount := some (normCharacterCount data) }
    ({ s2 with isLoading := false }, true)

/-- `handleClear`: resets input, output, error and every derived metric. -/
def handleClear (s : AppState) : AppState :=
  { s with inputText := "", outputText := "", error := "",
           confidenceScore := none, alternativeVersions := [],
           processingTime := none, wordCount := none,
           characterCount := none }

/-- The canned `sampleResponse` object literal of `handleTestSample`. -/
structure SampleResponse where
  paraphrased_text : String
  confidence_score : ℚ
  alternatives : List String
  processing_time : ℚ
  word_count : ℚ
  character_count : ℚ
  deriving Repr, DecidableEq

/-- The fixed sample values of `handleTestSample`. -/
def sampleResponse : SampleResponse :=
  { paraphrased_text :=
      "Testing this feature for today\x27s daily task, I\x27ll be including this in the report.",
    confidence_score := 85/100,
    alternatives :=
      ["I\x27m testing this feature for today\x27s daily task and will include it in the report.",
       "This feature is being tested for today\x27s daily task, and it will be added to the report."],
    processing_time := 5/10,
    word_count := 14,
    character_count := 79 }

/-- `handleTestSample`: populates the state from the fixed sample pair,
with no network access (the returned `Bool` records that no fetch ran). -/
def handleTestSample (s : AppState) : AppState × Bool :=
  ({ s with
      inputText :=
        "Testing this feature for todays daily task I\x27ll be including this in the report",
      outputText := sampleResponse.paraphrased_text,
      confidenceScore := some sampleResponse.confidence_score,
      alternativeVersions := sampleResponse.alternatives,
      processingTime := some sampleResponse.processing_time,
      wordCount := some sampleResponse.word_count,
      characterCount := some sampleResponse.character_count }, false)

/-- Outcome of the awaited `navigator.clipboard.writeText` call. -/
inductive ClipboardOutcome where
  | success : ClipboardOutcome
  | failure : JsError → ClipboardOutcome
  deriving Repr, DecidableEq

/-- `handleCopyOutput` (modelled up to the 2-second timeout that later
resets the indicator): on success sets the copied-text indicator to the
given type tag; on failure leaves the state untouched and reports the
error on the console only.  The second component is the console
diagnostic: `some e` means `console.error("Failed to copy text:", e)` ran. -/
def handleCopyOutput (outcome : ClipboardOutcome) (ty : String)
    (s : AppState) : AppState × Option JsError :=
  match outcome with
  | .success => ({ s with copiedText := some ty }, none)
  | .failure e => (s, some e)

/-- Spec-side reading of the §4.1 rule for the output-text field, taken
from the spec\x27s words, PRESENCE deciding: the value of the first present
key among `paraphrasedText`, `paraphrased_text`, `text`, else the empty
string — regardless of whether that value is truthy.  Stated only to be
compared with `normOutputText`, which follows the source. -/
def specFirstPresentOutputText (d : ApiResponse) : String :=
  match d.paraphrasedText with
  | some s => s
  | none =>
    match d.paraphrased_text with
    | some s => s
    | none =>
      match d.text with
      | some s => s
      | none => ""

/-- A state as left by an earlier successful submission: non-empty input,
a previous output text and previous metrics present. -/
def succeededState : AppState :=
  { inputText := "hello world", outputText := "old result",
    selectedStyle := "creative", isLoading := false, error := "",
    confidenceScore := some (9/10), alternativeVersions := ["alt one"],
    processingTime := some 1, wordCount := some 2,
    characterCount := some 11, copiedText := none }

/-- A whitespace-only-input variant of `succeededState`. -/
def blankInputState : AppState :=
  { succeededState with inputText := "   " }

/-- C2: when the input is empty after trimming, `handleParaphrase` sets
the validation error message and returns at once — the result state is
the old state with only the error message set, and no network request is
issued. -/
theorem empty_input_no_fetch (s : AppState) (o : FetchOutcome)
    (h : jsTrim s.inputText = "") :
    handleParaphrase o s =
      ({ s with error := "Please enter some text to paraphrase" }, false) := by
  simp [handleParaphrase, h]

/-- Witness for C2 at the whitespace-only input `"   "`. -/
theorem empty_input_no_fetch_witness :
    jsTrim blankInputState.inputText = "" ∧
    handleParaphrase (.fetchFailed .nonError) blankInputState =
      ({ blankInputState with
          error := "Please enter some text to paraphrase" }, false) :=
  ⟨by decide, empty_input_no_fetch blankInputState (.fetchFailed .nonError) (by decide)⟩

/-- C10: a validation failure of `handleParaphrase` is atomic apart from
the error message: with input empty after trimming, every field other
than `error` is unchanged, no network request is issued, and `error`
becomes the validation message. -/
theorem validation_failure_frame (s : AppState) (o : FetchOutcome)
    (h : jsTrim s.inputText = "") :
    (handleParaphrase o s).2 = false ∧
    (handleParaphrase o s).1.inputText = s.inputText ∧
    (handleParaphrase o s).1.outputText = s.outputText ∧
    (handleParaphrase o s).1.selectedStyle = s.selectedStyle ∧
    (handleParaphrase o s).1.isLoading = s.isLoading ∧
    (handleParaphrase o s).1.confidenceScore = s.confidenceScore ∧
    (handleParaphrase o s).1.alternativeVersions = s.alternativeVersions ∧
    (handleParaphrase o s).1.processingTime = s.processingTime ∧
    (handleParaphrase o s).1.wordCount = s.wordCount ∧
    (handleParaphrase o s).1.characterCount = s.characterCount ∧
    (handleParaphrase o s).1.copiedText = s.copiedText ∧
    (handleParaphrase o s).1.error = "Please enter some text to paraphrase" := by
  simp [handleParaphrase, h]

/-- Witness for C10 at the empty input `""`. -/
theorem validation_failure_frame_witness :
    jsTrim ({ succeededState with inputText := "" } : AppState).inputText = "" ∧
    ((handleParaphrase (.gotResponse 200 "OK" (.ok ApiResponse.empty))
        { succeededState with inputText := "" }).2 = false ∧
     (handleParaphrase (.gotResponse 200 "OK" (.ok ApiResponse.empty))
        { succeededState with inputText := "" }).1.inputText =
       ({ succeededState with inputText := "" } : AppState).inputText ∧
     (handleParaphrase (.gotResponse 200 "OK" (.ok ApiResponse.empty))
        { succeededState with inputText := "" }).1.outputText =
       ({ succeededState with inputText := "" } : AppState).outputText ∧
     (handleParaphrase (.gotResponse 200 "OK" (.ok ApiResponse.empty))
        { succeededState with inputText := "" }).1.selectedStyle =
       ({ succeededState with inputText := "" } : AppState).selectedStyle ∧
     (handleParaphrase (.gotResponse 200 "OK" (.ok ApiResponse.empty))
        { succeededState with inputText := "" }).1.isLoading =
       ({ succeededState with inputText := "" } : AppState).isLoading ∧
     (handleParaphrase (.gotResponse 200 "OK" (.ok ApiResponse.empty))
        { succeededState with inputText := "" }).1.confidenceScore =
       ({ succeededState with inputText := "" } : AppState).confidenceScore ∧
     (handleParaphrase (.gotResponse 200 "OK" (.ok ApiResponse.empty))
        { succeededState with inputText := "" }).1.alternativeVersions =
       ({ succeededState with inputText := "" } : AppState).alternativeVersions ∧
     (handleParaphrase (.gotResponse 200 "OK" (.ok ApiResponse.empty))
        { succeededState with inputText := "" }).1.processingTime =
       ({ succeededState with inputText := "" } : AppState).processingTime ∧
     (handleParaphrase (.gotResponse 200 "OK" (.ok ApiResponse.empty))
        { succeededState with inputText := "" }).1.wordCount =
       ({ succeededState with inputText := "" } : AppState).wordCount ∧
     (handleParaphrase (.gotResponse 200 "OK" (.ok ApiResponse.empty))
        { succeededState with inputText := "" }).1.characterCount =
       ({ succeededState with inputText := "" } : AppState).characterCount ∧
     (handleParaphrase (.gotResponse 200 "OK" (.ok ApiResponse.empty))
        { succeededState with inputText := "" }).1.copiedText =
       ({ succeededState with inputText := "" } : AppState).copiedText ∧
     (handleParaphrase (.gotResponse 200 "OK" (.ok ApiResponse.empty))
        { succeededState with inputText := "" }).1.error =
       "Please enter some text to paraphrase") :=
  ⟨by decide,
   validation_failure_frame { succeededState with inputText := "" }
     (.gotResponse 200 "OK" (.ok ApiResponse.empty)) (by decide)⟩

/-- C6: for every invocation that passes validation, whatever the fetch
outcome — success, network failure, parse failure or non-OK status — the
`Loading` flag is false when `handleParaphrase` completes. -/
theorem loading_cleared_on_completion (s : AppState) (o : FetchOutcome)
    (h : jsTrim s.inputText ≠ "") :
    (handleParaphrase o s).1.isLoading = false := by
  unfold handleParaphrase
  rw [if_neg h]

/-- Witness for C6: a non-blank input with a network-failure outcome. -/
theorem loading_cleared_on_completion_witness :
    jsTrim succeededState.inputText ≠ "" ∧
    (handleParaphrase (.fetchFailed (.errorObj "Failed to fetch"))
        succeededState).1.isLoading = false :=
  ⟨by decide,
   loading_cleared_on_completion succeededState
     (.fetchFailed (.errorObj "Failed to fetch")) (by decide)⟩

/-- C1 counterexample: starting from a state left by an earlier success
(output text `"old result"`, non-empty input), a submission that fails
with HTTP 500 still shows the stale output text — `handleParaphrase` does
not clear `outputText` before the request, refuting the claim that the
previous output text is reset. -/
theorem stale_output_after_failed_submit_cex :
    (handleParaphrase
        (.gotResponse 500 "Internal Server Error" (.ok ApiResponse.empty))
        succeededState).1.outputText = "old result" ∧
    (handleParaphrase
        (.gotResponse 500 "Internal Server Error" (.ok ApiResponse.empty))
        succeededState).1.outputText ≠ "" ∧
    (handleParaphrase
        (.gotResponse 500 "Internal Server Error" (.ok ApiResponse.empty))
        succeededState).1.error = "Error: 500 Internal Server Error" := by
  refine ⟨rfl, ?_, rfl⟩
  decide

/-- C1 (amended): on every invocation of `handleParaphrase` with input
that is non-empty after trimming and an outcome that fails (network
failure, non-2xx status, or parse failure), the previous error message
and all derived metrics (confidence, alternatives, processing time, word
count, character count) are cleared, but the previous output text is NOT
cleared: it is left unchanged, so stale output from an earlier success is
still present after a failed submission. -/
theorem paraphrase_clears_metrics_not_output (s : AppState) (o : FetchOutcome)
    (h : jsTrim s.inputText ≠ "") (hf : o.isFailure = true) :
    (handleParaphrase o s).1.outputText = s.outputText ∧
    (handleParaphrase o s).1.confidenceScore = none ∧
    (handleParaphrase o s).1.alternativeVersions = [] ∧
    (handleParaphrase o s).1.processingTime = none ∧
    (handleParaphrase o s).1.wordCount = none ∧
    (handleParaphrase o s).1.characterCount = none := by
  unfold handleParaphrase
  rw [if_neg h]
  cases o with
  | fetchFailed e => exact ⟨rfl, rfl, rfl, rfl, rfl, rfl⟩
  | gotResponse status statusText body =>
      simp only [FetchOutcome.isFailure] at hf
      by_cases hok : okStatus status
      · cases body with
        | error e => simp [hok]
        | ok data => simp [hok] at hf
      · simp [hok]

/-- Witness for the amended C1: a failed 500 submission from a state with
previous metrics present keeps the old output text and clears metrics. -/
theorem paraphrase_clears_metrics_not_output_witness :
    (jsTrim succeededState.inputText ≠ "" ∧
     (FetchOutcome.gotResponse 500 "Internal Server Error"
        (.error (.errorObj "unexpected token"))).isFailure = true) ∧
    ((handleParaphrase
        (.gotResponse 500 "Internal Server Error"
          (.error (.errorObj "unexpected token"))) succeededState).1.outputText =
      succeededState.outputText ∧
     (handleParaphrase
        (.gotResponse 500 "Internal Server Error"
          (.error (.errorObj "unexpected token"))) succeededState).1.confidenceScore = none ∧
     (handleParaphrase
        (.gotResponse 500 "Internal Server Error"
          (.error (.errorObj "unexpected token"))) succeededState).1.alternativeVersions = [] ∧
     (handleParaphrase
        (.gotResponse 500 "Internal Server Error"
          (.error (.errorObj "unexpected token"))) succeededState).1.processingTime = none ∧
     (handleParaphrase
        (.gotResponse 500 "Internal Server Error"
          (.error (.errorObj "unexpected token"))) succeededState).1.wordCount = none ∧
     (handleParaphrase
        (.gotResponse 500 "Internal Server Error"
          (.error (.errorObj "unexpected token"))) succeededState).1.characterCount = none) :=
  ⟨⟨by decide, rfl⟩,
   paraphrase_clears_metrics_not_output succeededState
     (.gotResponse 500 "Internal Server Error"
       (.error (.errorObj "unexpected token"))) (by decide) rfl⟩

/-- C5: for every non-2xx response received after a valid submission,
`handleParaphrase` ends Failed: the error message is exactly
`"Error: " ++ status ++ " " ++ statusText` — hence contains the numeric
status code and the status text — it is non-empty, loading is cleared,
and the result is independent of the response body (no result is
constructed from the body). -/
theorem non_ok_status_failed (s : AppState) (status : Nat)
    (statusText : String) (body bodyAlt : Except JsError ApiResponse)
    (h : jsTrim s.inputText ≠ "") (hok : okStatus status = false) :
    (handleParaphrase (.gotResponse status statusText body) s).1.error =
      "Error: " ++ toString status ++ " " ++ statusText ∧
    (∃ a b, (handleParaphrase (.gotResponse status statusText body) s).1.error =
      a ++ toString status ++ b) ∧
    (∃ c d, (handleParaphrase (.gotResponse status statusText body) s).1.error =
      c ++ statusText ++ d) ∧
    (handleParaphrase (.gotResponse status statusText body) s).1.error ≠ "" ∧
    (handleParaphrase (.gotResponse status statusText body) s).1.isLoading = false ∧
    handleParaphrase (.gotResponse status statusText body) s =
      handleParaphrase (.gotResponse status statusText bodyAlt) s := by
  have key : ∀ b : Except JsError ApiResponse,
      handleParaphrase (.gotResponse status statusText b) s =
        ({ s with isLoading := false,
                  error := "Error: " ++ toString status ++ " " ++ statusText,
                  confidenceScore := none, alternativeVersions := [],
                  processingTime := none, wordCount := none,
                  characterCount := none }, true) := by
    intro b
    simp [handleParaphrase, h, hok, caughtMessage]
  have hne : "Error: " ++ toString status ++ " " ++ statusText ≠ "" := by
    intro hcontr
    have hlen := congrArg String.length hcontr
    rw [String.length_append, String.length_append, String.length_append] at hlen
    have hE7 : "Error: ".length = 7 := rfl
    have hSp : " ".length = 1 := rfl
    have hNil : "".length = 0 := rfl
    rw [hE7, hSp, hNil] at hlen
    omega
  refine ⟨by rw [key], ?_, ?_, by rw [key]; exact hne, by rw [key], by rw [key, key]⟩
  · refine ⟨"Error: ", " " ++ statusText, ?_⟩
    rw [key]
    show "Error: " ++ toString status ++ " " ++ statusText = _
    rw [String.append_assoc]
  · refine ⟨"Error: " ++ toString status ++ " ", "", ?_⟩
    rw [key]
    show "Error: " ++ toString status ++ " " ++ statusText = _
    rw [String.append_empty]

/-- Witness for C5: a 500 response with two different bodies. -/
theorem non_ok_status_failed_witness :
    (jsTrim succeededState.inputText ≠ "" ∧
     okStatus 500 = false) ∧
    ((handleParaphrase (.gotResponse 500 "Internal Server Error"
        (.ok ApiResponse.empty)) succeededState).1.error =
      "Error: " ++ toString 500 ++ " " ++ "Internal Server Error" ∧
     (∃ a b, (handleParaphrase (.gotResponse 500 "Internal Server Error"
        (.ok ApiResponse.empty)) succeededState).1.error =
       a ++ toString 500 ++ b) ∧
     (∃ c d, (handleParaphrase (.gotResponse 500 "Internal Server Error"
        (.ok ApiResponse.empty)) succeededState).1.error =
       c ++ "Internal Server Error" ++ d) ∧
     (handleParaphrase (.gotResponse 500 "Internal Server Error"
        (.ok ApiResponse.empty)) succeededState).1.error ≠ "" ∧
     (handleParaphrase (.gotResponse 500 "Internal Server Error"
        (.ok ApiResponse.empty)) succeededState).1.isLoading = false ∧
     handleParaphrase (.gotResponse 500 "Internal Server Error"
        (.ok ApiResponse.empty)) succeededState =
       handleParaphrase (.gotResponse 500 "Internal Server Error"
        (.error (.errorObj "unexpected token"))) succeededState) :=
  ⟨⟨by decide, by decide⟩,
   non_ok_status_failed succeededState 500 "Internal Server Error"
     (.ok ApiResponse.empty) (.error (.errorObj "unexpected token"))
     (by decide) (by decide)⟩

/-- A response whose first-listed key is present but holds a falsy value:
`paraphrasedText` is present with value `""` and `paraphrased_text` holds
`"Hello"`. -/
def falsyFirstKeyResponse : ApiResponse :=
  { ApiResponse.empty with
      paraphrasedText := some "",
      paraphrased_text := some "Hello" }

/-- C3 counterexample: normalization does not select the first PRESENT
key.  On a response where `paraphrasedText` is present with value `""`
and `paraphrased_text` holds `"Hello"`, the spec-side first-present rule
yields `""` while the code yields `"Hello"` — `||` skips present falsy
values. -/
theorem first_present_key_cex :
    normOutputText falsyFirstKeyResponse = "Hello" ∧
    specFirstPresentOutputText falsyFirstKeyResponse = "" ∧
    specFirstPresentOutputText falsyFirstKeyResponse ≠
      normOutputText falsyFirstKeyResponse := by
  refine ⟨rfl, rfl, ?_⟩
  decide

/-- C3 (amended): normalization selects for each field the first key in
the listed order whose value is present AND truthy (a non-empty string, a
non-zero number; any present array, the empty array included); a key that
is absent or holds a falsy value is skipped.  In particular, when the
earlier-listed keys are absent, each field normalizes to the snake_case
value when that value is truthy, and to the default — which coincides
with the falsy value — otherwise: output text equals
`paraphrased_text` (up to the empty-string default), confidence equals
`confidence_score` (up to the `0` default), alternatives equals
`alternatives`, processing time equals `processing_time`, word count
equals `word_count`, and character count equals `character_count`. -/
theorem snake_case_fallback (d : ApiResponse)
    (h1 : d.paraphrasedText = none) (h2 : d.text = none)
    (h3 : d.confidence = none)
    (h4 : d.alternativeVersions = none) (h5 : d.alternative_versions = none)
    (h6 : d.processingTime = none)
    (h7 : d.wordCount = none) (h8 : d.characterCount = none) :
    normOutputText d = d.paraphrased_text.getD "" ∧
    normConfidence d = d.confidence_score.getD 0 ∧
    normAlternatives d = d.alternatives.getD [] ∧
    normProcessingTime d = d.processing_time.getD 0 ∧
    normWordCount d = d.word_count.getD 0 ∧
    normCharacterCount d = d.character_count.getD 0 := by
  refine ⟨?_, ?_, ?_, ?_, ?_, ?_⟩
  · rw [normOutputText, h1, h2]
    cases hm : d.paraphrased_text with
    | none => rfl
    | some v =>
        by_cases hv : v = ""
        · subst hv; rfl
        · simp [jsOrStr, hv]
  · rw [normConfidence, h3]
    cases hm : d.confidence_score with
    | none => rfl
    | some v =>
        by_cases hv : v = 0
        · subst hv; rfl
        · simp [jsOrNum, hv]
  · rw [normAlternatives, h4, h5]
    cases hm : d.alternatives with
    | none => rfl
    | some v => rfl
  · rw [normProcessingTime, h6]
    cases hm : d.processing_time with
    | none => rfl
    | some v =>
        by_cases hv : v = 0
        · subst hv; rfl
        · simp [jsOrNum, hv]
  · rw [normWordCount, h7]
    cases hm : d.word_count with
    | none => rfl
    | some v =>
        by_cases hv : v = 0
        · subst hv; rfl
        · simp [jsOrNum, hv]
  · rw [normCharacterCount, h8]
    cases hm : d.character_count with
    | none => rfl
    | some v =>
        by_cases hv : v = 0
        · subst hv; rfl
        · simp [jsOrNum, hv]

/-- A response using only snake_case keys, with truthy values. -/
def snakeOnlyResponse : ApiResponse :=
  { ApiResponse.empty with
      paraphrased_text := some "Hi there",
      confidence_score := some (1/2),
      alternatives := some ["one", "two"],
      processing_time := some 2,
      word_count := some 2,
      character_count := some 8 }

/-- Witness for the amended C3 at a snake_case-only response. -/
theorem snake_case_fallback_witness :
    (snakeOnlyResponse.paraphrasedText = none ∧
     snakeOnlyResponse.text = none ∧
     snakeOnlyResponse.confidence = none ∧
     snakeOnlyResponse.alternativeVersions = none ∧
     snakeOnlyResponse.alternative_versions = none ∧
     snakeOnlyResponse.processingTime = none ∧
     snakeOnlyResponse.wordCount = none ∧
     snakeOnlyResponse.characterCount = none) ∧
    (normOutputText snakeOnlyResponse =
       snakeOnlyResponse.paraphrased_text.getD "" ∧
     normConfidence snakeOnlyResponse =
       snakeOnlyResponse.confidence_score.getD 0 ∧
     normAlternatives snakeOnlyResponse =
       snakeOnlyResponse.alternatives.getD [] ∧
     normProcessingTime snakeOnlyResponse =
       snakeOnlyResponse.processing_time.getD 0 ∧
     normWordCount snakeOnlyResponse =
       snakeOnlyResponse.word_count.getD 0 ∧
     normCharacterCount snakeOnlyResponse =
       snakeOnlyResponse.character_count.getD 0) :=
  ⟨⟨rfl, rfl, rfl, rfl, rfl, rfl, rfl, rfl⟩,
   snake_case_fallback snakeOnlyResponse rfl rfl rfl rfl rfl rfl rfl rfl⟩

/-- C4: on a response with none of the known keys present, every field
normalizes to its default — empty output text, confidence `0`, empty
alternatives, processing time `0`, word count `0`, character count `0` —
and never to an absent value. -/
theorem missing_fields_normalize_to_defaults (d : ApiResponse)
    (h1 : d.paraphrasedText = none) (h2 : d.paraphrased_text = none)
    (h3 : d.text = none) (h4 : d.confidence = none)
    (h5 : d.confidence_score = none) (h6 : d.alternativeVersions = none)
    (h7 : d.alternatives = none) (h8 : d.alternative_versions = none)
    (h9 : d.processingTime = none) (h10 : d.processing_time = none)
    (h11 : d.wordCount = none) (h12 : d.word_count = none)
    (h13 : d.characterCount = none) (h14 : d.character_count = none) :
    normOutputText d = "" ∧
    normConfidence d = 0 ∧
    normAlternatives d = [] ∧
    normProcessingTime d = 0 ∧
    normWordCount d = 0 ∧
    normCharacterCount d = 0 := by
  refine ⟨?_, ?_, ?_, ?_, ?_, ?_⟩
  · rw [normOutputText, h1, h2, h3]; rfl
  · rw [normConfidence, h4, h5]; rfl
  · rw [normAlternatives, h6, h7, h8]; rfl
  · rw [normProcessingTime, h9, h10]; rfl
  · rw [normWordCount, h11, h12]; rfl
  · rw [normCharacterCount, h13, h14]; rfl

/-- Witness for C4 at the all-absent response. -/
theorem missing_fields_normalize_to_defaults_witness :
    (ApiResponse.empty.paraphrasedText = none ∧
     ApiResponse.empty.paraphrased_text = none ∧
     ApiResponse.empty.text = none ∧
     ApiResponse.empty.confidence = none ∧
     ApiResponse.empty.confidence_score = none ∧
     ApiResponse.empty.alternativeVersions = none ∧
     ApiResponse.empty.alternatives = none ∧
     ApiResponse.empty.alternative_versions = none ∧
     ApiResponse.empty.processingTime = none ∧
     ApiResponse.empty.processing_time = none ∧
     ApiResponse.empty.wordCount = none ∧
     ApiResponse.empty.word_count = none ∧
     ApiResponse.empty.characterCount = none ∧
     ApiResponse.empty.character_count = none) ∧
    (normOutputText ApiResponse.empty = "" ∧
     normConfidence ApiResponse.empty = 0 ∧
     normAlternatives ApiResponse.empty = [] ∧
     normProcessingTime ApiResponse.empty = 0 ∧
     normWordCount ApiResponse.empty = 0 ∧
     normCharacterCount ApiResponse.empty = 0) :=
  ⟨⟨rfl, rfl, rfl, rfl, rfl, rfl, rfl, rfl, rfl, rfl, rfl, rfl, rfl, rfl⟩,
   missing_fields_normalize_to_defaults ApiResponse.empty
     rfl rfl rfl rfl rfl rfl rfl rfl rfl rfl rfl rfl rfl rfl⟩

/-- C7: `handleTestSample` performs no network call, is idempotent
(running it twice in a row equals running it once), and is deterministic
in its result content: from any two states, both runs produce the same
input text, output text, confidence, alternatives, processing time, word
count and character count. -/
theorem handleTestSample_idempotent_deterministic (s t : AppState) :
    (handleTestSample s).2 = false ∧
    handleTestSample (handleTestSample s).1 = handleTestSample s ∧
    ((handleTestSample s).1.inputText = (handleTestSample t).1.inputText ∧
     (handleTestSample s).1.outputText = (handleTestSample t).1.outputText ∧
     (handleTestSample s).1.confidenceScore =
       (handleTestSample t).1.confidenceScore ∧
     (handleTestSample s).1.alternativeVersions =
       (handleTestSample t).1.alternativeVersions ∧
     (handleTestSample s).1.processingTime =
       (handleTestSample t).1.processingTime ∧
     (handleTestSample s).1.wordCount = (handleTestSample t).1.wordCount ∧
     (handleTestSample s).1.characterCount =
       (handleTestSample t).1.characterCount) :=
  ⟨rfl, rfl, rfl, rfl, rfl, rfl, rfl, rfl, rfl⟩

/-- C8: from every prior state, `handleClear` empties the input text, the
output text and the error message, and resets every derived metric —
confidence, alternatives, processing time, word count, character count —
to its absent/empty value. -/
theorem clear_resets_to_idle (s : AppState) :
    (handleClear s).inputText = "" ∧
    (handleClear s).outputText = "" ∧
    (handleClear s).error = "" ∧
    (handleClear s).confidenceScore = none ∧
    (handleClear s).alternativeVersions = [] ∧
    (handleClear s).processingTime = none ∧
    (handleClear s).wordCount = none ∧
    (handleClear s).characterCount = none :=
  ⟨rfl, rfl, rfl, rfl, rfl, rfl, rfl, rfl⟩

/-- C9: on every clipboard write failure, `handleCopyOutput` leaves the
whole state unchanged — in particular the user-visible error message is
not modified and the copied-text indicator is not set — and the failure
is reported on the console only. -/
theorem copy_failure_logged_only (s : AppState) (ty : String) (e : JsError) :
    (handleCopyOutput (.failure e) ty s).1 = s ∧
    (handleCopyOutput (.failure e) ty s).1.error = s.error ∧
    (handleCopyOutput (.failure e) ty s).1.copiedText = s.copiedText ∧
    (handleCopyOutput (.failure e) ty s).2 = some e :=
  ⟨rfl, rfl, rfl, rfl⟩

end Paraphraser
